import Mathlib

/-!
Shallow embedding of the CDC replication core of the `litesql/ha` repository.

The definitions below are translated from the Go source:
* `internal/sqlite/changeset.go` — `Change`, `ChangeSet`, `Clear`, `Send`,
  `Apply`, `placeholders`;
* `internal/sqlite/driver.go` — the commit and rollback hooks;
* `internal/nats/cdc_subscriber.go` — the subscriber `handler`, `ack`,
  `LatestSeq` and the delivery-policy parsing of `NewCDCSubscriber`;
* `internal/nats/cdc_publisher.go` — `CDCPublisher.Publish` (package level
  `seq` variable) and `Snapshotter.TakeSnapshot` / `GetLatestSnapshot`;
* `internal/sqlite/db.go` — the snapshot-resume branch of `Load` and the
  dispatch of `Exec`;
* `internal/pgwire/pgwire.go` — the completion-tag selection of `handler`.

Side effects (SQL execution, NATS I/O, acknowledgements) are made explicit:
fallible calls are modelled by boolean/`Option` oracles passed as arguments,
and the row-level effect of the translated SQL statements is modelled as a
function update on a database state indexed by `(database, table, rowid)`.
-/

namespace HA

/-- SQL column value as carried in a `Change` (Go `any` holding the SQLite
storage classes).  SQLite REAL values are represented by rationals; every
claim treats values as opaque data, so only decidable equality matters. -/
inductive Value where
  | null : Value
  | int (i : Int) : Value
  | real (q : ℚ) : Value
  | text (s : String) : Value
  | blob (b : List UInt8) : Value
  deriving DecidableEq, Repr

/-- Row content: the list of column values of one table row. -/
abbrev Row := List Value

/-- Change — a single row-level mutation (struct `Change` in
`internal/sqlite/changeset.go`). -/
structure Change where
  Database : String
  Table : String
  Columns : List String
  Operation : String
  OldRowID : Int
  NewRowID : Int
  OldValues : List Value
  NewValues : List Value
  deriving DecidableEq, Repr

/-- ChangeSet — the unit of publication (struct `ChangeSet` in
`internal/sqlite/changeset.go`).  The `ProcessID` and `StreamSeq` fields are
assigned by `CDCPublisher.Publish` and by the subscriber `handler`
respectively; their declarations are not part of the copy of `changeset.go`
under `src/` and are modelled from the spec data model (§3: `node`,
`process_id`, `changes`, `timestamp_ns`, `stream_seq`). -/
structure ChangeSet where
  Node : String
  ProcessID : Int := 0
  Changes : List Change := []
  Timestamp : Int := 0
  StreamSeq : Nat := 0
  deriving DecidableEq, Repr

/-- Constructor `NewChangeSet` from `changeset.go`. -/
def NewChangeSet (node : String) : ChangeSet :=
  { Node := node }

/-- Method `ChangeSet.AddChange` from `changeset.go`. -/
def ChangeSet.AddChange (cs : ChangeSet) (change : Change) : ChangeSet :=
  { cs with Changes := cs.Changes ++ [change] }

/-- Method `ChangeSet.Clear` from `changeset.go`: `cs.Changes = nil`. -/
def ChangeSet.Clear (cs : ChangeSet) : ChangeSet :=
  { cs with Changes := [] }

/-- Function `placeholders` from `changeset.go`: builds `?1,?2,…,?n` by
appending `?i,` for each index and trimming the trailing comma. -/
def placeholders (n : Nat) : String :=
  if n = 0 then ""
  else
    let raw := ((List.range n).map (fun i => "?" ++ toString (i + 1) ++ ",")).foldl
      (fun acc part => acc ++ part) ""
    raw.dropRightWhile (fun ch => ch = ',')

/-- SQL text generated by `ChangeSet.Apply` for an INSERT change: the upsert
keyed on rowid whose conflict clause reuses the numbered placeholders. -/
def insertSQL (c : Change) : String :=
  let setClause := String.intercalate ", "
    ((List.range c.Columns.length).map (fun i =>
      (c.Columns.get? i).getD "" ++ " = ?" ++ toString (i + 1)))
  "INSERT INTO " ++ c.Database ++ "." ++ c.Table ++ " (" ++
    String.intercalate ", " c.Columns ++ ", rowid) VALUES (" ++
    placeholders (c.NewValues.length + 1) ++ ") ON CONFLICT (rowid) DO UPDATE SET " ++
    setClause ++ ";"

/-- Database state at row granularity: each `(database, table, rowid)` key
holds at most one row. -/
abbrev RowKey := String × String × Int

/-- Row-level database state. -/
abbrev DBState := RowKey → Option Row

/-- Row-level semantics of the single SQL statement `ChangeSet.Apply`
generates for one change (switch on `change.Operation`):

* `INSERT … ON CONFLICT (rowid) DO UPDATE SET …` bound with
  `NewValues ++ [NewRowID]` — an upsert at `NewRowID` writing `NewValues`;
* `UPDATE … SET … WHERE rowid = ?` bound with `NewValues ++ [OldRowID]` —
  writes `NewValues` at `OldRowID` when that row exists, otherwise no row
  matches and nothing changes;
* `DELETE … WHERE rowid = ?` bound with `OldRowID` — removes the row;
* any other operation falls to the `default` branch and is skipped. -/
def applyChange (s : DBState) (c : Change) : DBState :=
  if c.Operation = "INSERT" then
    fun k => if k = (c.Database, c.Table, c.NewRowID) then some c.NewValues else s k
  else if c.Operation = "UPDATE" then
    fun k =>
      if k = (c.Database, c.Table, c.OldRowID) then
        match s k with
        | some _ => some c.NewValues
        | none => none
      else s k
  else if c.Operation = "DELETE" then
    fun k => if k = (c.Database, c.Table, c.OldRowID) then none else s k
  else s

/-- Sequential row-level effect of a list of changes (the loop body of
`ChangeSet.Apply` in capture order). -/
def applyChangeList (s : DBState) (l : List Change) : DBState :=
  l.foldl applyChange s

/-- Operation recognised by the switch in `ChangeSet.Apply`
(`INSERT`, `UPDATE` or `DELETE`); anything else hits the `default` branch. -/
def Change.isKnownOp (c : Change) : Bool :=
  c.Operation == "INSERT" || c.Operation == "UPDATE" || c.Operation == "DELETE"

/-- Transaction loop of `ChangeSet.Apply`: each recognised change executes one
translated statement (`fail c = true` models `tx.Exec` returning an error, in
which case the loop stops and the transaction is rolled back, yielding
`none`); unrecognised operations are logged and skipped. -/
def applyLoop (fail : Change → Bool) : DBState → List Change → Option DBState
  | s, [] => some s
  | s, c :: rest =>
    if c.isKnownOp then
      if fail c then none else applyLoop fail (applyChange s c) rest
    else applyLoop fail s rest

/-- Isolation levels that appear in the source (`database/sql`). -/
inductive IsolationLevel where
  | levelDefault : IsolationLevel
  | readCommitted : IsolationLevel
  | serializable : IsolationLevel
  deriving DecidableEq, Repr

/-- Transaction options passed to `BeginTx`. -/
structure TxOptions where
  isolation : IsolationLevel
  readOnly : Bool
  deriving DecidableEq, Repr

/-- Options `ChangeSet.Apply` passes to `conn.BeginTx`:
`Isolation: sql.LevelReadCommitted, ReadOnly: false`. -/
def applyTxOptions : TxOptions :=
  { isolation := IsolationLevel.readCommitted, readOnly := false }

/-- Method `ChangeSet.Apply` from `changeset.go`: an empty change list
returns immediately; otherwise all changes run inside one transaction and on
any statement error the transaction is rolled back (the state reverts to the
input) and an error is returned.  The result is `(final state, error?)`. -/
def ChangeSet.Apply (fail : Change → Bool) (s : DBState) (cs : ChangeSet) :
    DBState × Bool :=
  if cs.Changes.isEmpty then (s, false)
  else
    match applyLoop fail s cs.Changes with
    | some s' => (s', false)
    | none => (s, true)

/-- Per-rowid summary of one translated statement, used to analyse
idempotence of replay. -/
inductive RowOp where
  | ins (v : Row) : RowOp
  | upd (v : Row) : RowOp
  | del : RowOp
  deriving DecidableEq, Repr

/-- Key a change touches together with its row-level operation; `none` for
operations the `Apply` switch skips. -/
def opOf (c : Change) : Option (RowKey × RowOp) :=
  if c.Operation = "INSERT" then
    some ((c.Database, c.Table, c.NewRowID), RowOp.ins c.NewValues)
  else if c.Operation = "UPDATE" then
    some ((c.Database, c.Table, c.OldRowID), RowOp.upd c.NewValues)
  else if c.Operation = "DELETE" then
    some ((c.Database, c.Table, c.OldRowID), RowOp.del)
  else none

/-- Effect of one row operation on the contents of its key. -/
def applyOp (o : Option Row) : RowOp → Option Row
  | RowOp.ins v => some v
  | RowOp.upd v =>
    match o with
    | some _ => some v
    | none => none
  | RowOp.del => none

/-- Row operations of a change list that touch a given key, in order. -/
def opsOn (k : RowKey) : List Change → List RowOp
  | [] => []
  | c :: rest =>
    match opOf c with
    | some kop => if kop.1 = k then kop.2 :: opsOn k rest else opsOn k rest
    | none => opsOn k rest

/-- Folding the row operations over a single cell. -/
def applyOps (o : Option Row) (ops : List RowOp) : Option Row :=
  ops.foldl applyOp o

theorem applyChange_unknown (s : DBState) (c : Change) (h : c.isKnownOp = false) :
    applyChange s c = s := by
  unfold Change.isKnownOp at h
  simp only [Bool.or_eq_false_iff, beq_eq_false_iff_ne, ne_eq] at h
  unfold applyChange
  simp [h.1.1, h.1.2, h.2]

theorem opOf_unknown (c : Change) (h : c.isKnownOp = false) : opOf c = none := by
  unfold Change.isKnownOp at h
  simp only [Bool.or_eq_false_iff, beq_eq_false_iff_ne, ne_eq] at h
  unfold opOf
  simp [h.1.1, h.1.2, h.2]

theorem applyChange_pointwise (s : DBState) (c : Change) (k : RowKey) :
    applyChange s c k =
      match opOf c with
      | some kop => if kop.1 = k then applyOp (s k) kop.2 else s k
      | none => s k := by
  by_cases hI : c.Operation = "INSERT"
  · by_cases hk : k = (c.Database, c.Table, c.NewRowID)
    · simp [applyChange, opOf, hI, hk, applyOp]
    · simp [applyChange, opOf, hI, hk, Ne.symm hk]
  · by_cases hU : c.Operation = "UPDATE"
    · by_cases hk : k = (c.Database, c.Table, c.OldRowID)
      · simp [applyChange, opOf, hI, hU, hk, applyOp]
      · simp [applyChange, opOf, hI, hU, hk, Ne.symm hk]
    · by_cases hD : c.Operation = "DELETE"
      · by_cases hk : k = (c.Database, c.Table, c.OldRowID)
        · simp [applyChange, opOf, hI, hU, hD, hk, applyOp]
        · simp [applyChange, opOf, hI, hU, hD, hk, Ne.symm hk]
      · simp [applyChange, opOf, hI, hU, hD]

theorem applyOp_presence (op : RowOp) (o₁ o₂ : Option Row)
    (h : o₁.isSome = o₂.isSome) : applyOp o₁ op = applyOp o₂ op := by
  cases op with
  | ins v => rfl
  | del => rfl
  | upd v =>
    cases o₁ with
    | none =>
      cases o₂ with
      | none => rfl
      | some w => simp at h
    | some w =>
      cases o₂ with
      | none => simp at h
      | some w' => rfl

theorem applyOp_upd_isSome (o : Option Row) (v : Row) :
    (applyOp o (RowOp.upd v)).isSome = o.isSome := by
  cases o <;> rfl

theorem applyOps_cons_presence (op : RowOp) (rest : List RowOp)
    (o₁ o₂ : Option Row) (h : o₁.isSome = o₂.isSome) :
    applyOps o₁ (op :: rest) = applyOps o₂ (op :: rest) := by
  unfold applyOps
  simp only [List.foldl_cons]
  rw [applyOp_presence op o₁ o₂ h]

theorem applyOps_append (o : Option Row) (l₁ l₂ : List RowOp) :
    applyOps o (l₁ ++ l₂) = applyOps (applyOps o l₁) l₂ := by
  unfold applyOps
  exact List.foldl_append applyOp o l₁ l₂

theorem applyOps_idem (ops : List RowOp) :
    ∀ o : Option Row, applyOps (applyOps o ops) ops = applyOps o ops := by
  induction ops using List.reverseRecOn with
  | nil => intro o; rfl
  | append_singleton rest op ih =>
    intro o
    rw [applyOps_append, applyOps_append]
    cases op with
    | ins v => rfl
    | del => rfl
    | upd v =>
      cases rest with
      | nil =>
        cases o with
        | none => rfl
        | some w => rfl
      | cons op0 rest0 =>
        have hpres : (applyOps (applyOps o (op0 :: rest0)) [RowOp.upd v]).isSome =
            (applyOps o (op0 :: rest0)).isSome :=
          applyOp_upd_isSome _ v
        have h1 : applyOps (applyOps (applyOps o (op0 :: rest0)) [RowOp.upd v]) (op0 :: rest0) =
            applyOps (applyOps o (op0 :: rest0)) (op0 :: rest0) :=
          applyOps_cons_presence op0 rest0 _ _ hpres
        rw [h1, ih o]

theorem applyChangeList_pointwise (l : List Change) :
    ∀ (s : DBState) (k : RowKey), applyChangeList s l k = applyOps (s k) (opsOn k l) := by
  induction l with
  | nil => intro s k; rfl
  | cons c rest ih =>
    intro s k
    have hstep : applyChangeList s (c :: rest) = applyChangeList (applyChange s c) rest := rfl
    rw [hstep, ih (applyChange s c) k, applyChange_pointwise s c k]
    cases hop : opOf c with
    | none => simp [opsOn, hop]
    | some kop =>
      by_cases hk : kop.1 = k
      · simp [opsOn, hop, hk, applyOps]
      · simp [opsOn, hop, hk]

theorem applyChangeList_idem (s : DBState) (l : List Change) :
    applyChangeList (applyChangeList s l) l = applyChangeList s l := by
  funext k
  rw [applyChangeList_pointwise l _ k, applyChangeList_pointwise l s k]
  exact applyOps_idem (opsOn k l) (s k)

theorem applyLoop_eq (fail : Change → Bool) (l : List Change) :
    ∀ s : DBState,
      applyLoop fail s l =
        if l.all (fun c => !(c.isKnownOp && fail c)) then some (applyChangeList s l)
        else none := by
  induction l with
  | nil => intro s; rfl
  | cons c rest ih =>
    intro s
    by_cases hknown : c.isKnownOp = true
    · by_cases hfail : fail c = true
      · simp [applyLoop, hknown, hfail]
      · have hrest := ih (applyChange s c)
        simp only [applyLoop, hknown, if_pos rfl, hfail]
        simp only [Bool.not_eq_true] at hfail
        simp [hrest, hknown, hfail, applyChangeList]
    · have hrest := ih s
      have hchange : applyChange s c = s :=
        applyChange_unknown s c (by simpa using hknown)
      simp only [applyLoop, hknown]
      simp only [Bool.not_eq_true] at hknown
      simp [hrest, hknown, hchange, applyChangeList]

theorem Apply_eq (fail : Change → Bool) (s : DBState) (cs : ChangeSet) :
    cs.Apply fail s =
      if cs.Changes.all (fun c => !(c.isKnownOp && fail c)) then
        (applyChangeList s cs.Changes, false)
      else (s, true) := by
  unfold ChangeSet.Apply
  by_cases hempty : cs.Changes.isEmpty
  · have hnil : cs.Changes = [] := List.isEmpty_iff.mp hempty
    simp [hnil, applyChangeList]
  · rw [if_neg hempty, applyLoop_eq fail cs.Changes s]
    by_cases hall : cs.Changes.all (fun c => !(c.isKnownOp && fail c))
    · rw [if_pos hall, if_pos hall]
    · rw [if_neg hall, if_neg hall]

/-- C1: re-applying a ChangeSet on the same node is a no-op at row level.
Whatever the per-statement error oracle, the database state after
`Apply(Apply(CS))` equals the state after `Apply(CS)`: a replayed INSERT is
the upsert keyed on rowid whose conflict clause reuses the same bound
values, a replayed UPDATE rewrites the same values at the same rowid, and a
replayed DELETE finds no row. -/
theorem apply_reapply_noop (fail : Change → Bool) (s : DBState) (cs : ChangeSet) :
    (cs.Apply fail (cs.Apply fail s).1).1 = (cs.Apply fail s).1 := by
  rw [Apply_eq, Apply_eq]
  by_cases hall : cs.Changes.all (fun c => !(c.isKnownOp && fail c))
  · simp only [if_pos hall]
    exact applyChangeList_idem s cs.Changes
  · simp only [if_neg hall]

/-- C4: `ChangeSet.Apply` runs every change of the set inside one
transaction opened with read-committed isolation; if any translated
statement errors, the whole transaction is rolled back (the state reverts
to the input) and `Apply` reports the error; changes whose operation is not
INSERT, UPDATE or DELETE are skipped without failing the batch (removing
them from the loop leaves the result unchanged). -/
theorem apply_single_tx_error_handling (fail : Change → Bool) (s : DBState) (cs : ChangeSet) :
    ((cs.Apply fail s).2 = true → (cs.Apply fail s).1 = s) ∧
    ((cs.Apply fail s).2 = true ↔
      cs.Changes ≠ [] ∧ applyLoop fail s cs.Changes = none) ∧
    (∀ c : Change, c.isKnownOp = false → ∀ rest : List Change,
      applyLoop fail s (c :: rest) = applyLoop fail s rest) ∧
    applyTxOptions = { isolation := IsolationLevel.readCommitted, readOnly := false } := by
  have hloopall := applyLoop_eq fail cs.Changes s
  refine ⟨?_, ?_, ?_, rfl⟩
  · intro herr
    rw [Apply_eq] at herr ⊢
    by_cases hall : cs.Changes.all (fun c => !(c.isKnownOp && fail c))
    · rw [if_pos hall] at herr
      simp at herr
    · rw [if_neg hall]
  · rw [Apply_eq]
    by_cases hall : cs.Changes.all (fun c => !(c.isKnownOp && fail c))
    · rw [if_pos hall]
      constructor
      · intro h
        simp at h
      · rintro ⟨-, hnone⟩
        rw [hloopall, if_pos hall] at hnone
        simp at hnone
    · rw [if_neg hall]
      constructor
      · intro _
        constructor
        · intro hnil
          apply hall
          rw [hnil]
          rfl
        · rw [hloopall, if_neg hall]
      · intro _
        rfl
  · intro c hc rest
    simp [applyLoop, hc]

/-- Method `ChangeSet.Send` from `changeset.go`.  The publisher is modelled
as `Option (ChangeSet → Bool)` (`none` is a nil publisher; the function
returns `true` when `Publish` errors).  `Send` returns the changeset as it
is after the call (the deferred `Clear` runs in every non-early-return
case, even when `Publish` fails), the error flag, and the list of
changesets handed to `Publish` during the call. -/
def ChangeSet.Send (pub : Option (ChangeSet → Bool)) (now : Int) (cs : ChangeSet) :
    ChangeSet × Bool × List ChangeSet :=
  match pub with
  | none => (cs, false, [])
  | some publish =>
    if cs.Changes.isEmpty then (cs, false, [])
    else
      let stamped := { cs with Timestamp := now }
      (stamped.Clear, publish stamped, [stamped])

/-- Commit hook registered by `enableCDCHooks` in `driver.go`: calls
`cs.Send(publisher)` and returns `1` (aborting the commit in the engine) when
`Send` errors, `0` otherwise.  Result: (return code, changeset after,
published changesets). -/
def commitHook (pub : Option (ChangeSet → Bool)) (now : Int) (cs : ChangeSet) :
    Int × ChangeSet × List ChangeSet :=
  let r := cs.Send pub now
  (if r.2.1 then 1 else 0, r.1, r.2.2)

/-- Rollback hook registered by `enableCDCHooks` in `driver.go`: discards
the buffered changes and publishes nothing. -/
def rollbackHook (cs : ChangeSet) : ChangeSet × List ChangeSet :=
  (cs.Clear, [])

/-- C3: a commit whose transaction buffered at least one change hands
exactly one ChangeSet to the publisher; the commit hook returns non-zero
exactly when `Publish` errors (synchronous mode aborts the local
transaction); the rollback hook publishes nothing. -/
theorem commit_hook_publishes_once (publish : ChangeSet → Bool) (now : Int)
    (cs : ChangeSet) (h : cs.Changes ≠ []) :
    (commitHook (some publish) now cs).2.2.length = 1 ∧
    ((commitHook (some publish) now cs).1 ≠ 0 ↔
      publish { cs with Timestamp := now } = true) ∧
    (rollbackHook cs).2 = [] := by
  have hempty : cs.Changes.isEmpty = false := by
    cases hc : cs.Changes with
    | nil => exact absurd hc h
    | cons a l => rfl
  unfold commitHook ChangeSet.Send
  refine ⟨by simp [hempty], ?_, rfl⟩
  simp only [hempty, Bool.false_eq_true, if_neg, not_false_eq_true]
  cases hp : publish { cs with Timestamp := now } <;> simp [hp]

/-- Witness for C3 at a concrete input: a one-change commit with a failing
publisher publishes exactly one changeset and returns a non-zero code. -/
theorem commit_hook_publishes_once_witness :
    (commitHook (some (fun _ => true)) 9 (ChangeSet.mk "a" 0
        [Change.mk "main" "users" ["id"] "INSERT" 0 1 [] [Value.int 1]] 0 0)).2.2.length = 1 ∧
    ((commitHook (some (fun _ => true)) 9 (ChangeSet.mk "a" 0
        [Change.mk "main" "users" ["id"] "INSERT" 0 1 [] [Value.int 1]] 0 0)).1 ≠ 0 ↔
      (fun _ : ChangeSet => true) { ChangeSet.mk "a" 0
        [Change.mk "main" "users" ["id"] "INSERT" 0 1 [] [Value.int 1]] 0 0 with
          Timestamp := 9 } = true) ∧
    (rollbackHook (ChangeSet.mk "a" 0
        [Change.mk "main" "users" ["id"] "INSERT" 0 1 [] [Value.int 1]] 0 0)).2 = [] :=
  commit_hook_publishes_once (fun _ => true) 9
    (ChangeSet.mk "a" 0 [Change.mk "main" "users" ["id"] "INSERT" 0 1 [] [Value.int 1]] 0 0)
    (by decide)

/-- C9: when the changeset is non-empty and the publisher is non-nil, the
deferred `Clear` empties `Changes` before `Send` returns in every case —
also when `Publish` errors — so no buffered change survives to be
re-published. -/
theorem send_clears_changes (publish : ChangeSet → Bool) (now : Int)
    (cs : ChangeSet) (h : cs.Changes ≠ []) :
    (cs.Send (some publish) now).1.Changes = [] := by
  have hempty : cs.Changes.isEmpty = false := by
    cases hc : cs.Changes with
    | nil => exact absurd hc h
    | cons a l => rfl
  unfold ChangeSet.Send
  simp [hempty, ChangeSet.Clear]

/-- Witness for C9 at a concrete input with a failing publisher: the
buffer is empty after `Send` even though `Publish` returned an error. -/
theorem send_clears_changes_witness :
    ((ChangeSet.mk "a" 0 [Change.mk "main" "users" ["id"] "INSERT" 0 1 [] [Value.int 1]] 0 0).Send
        (some (fun _ => true)) 9).1.Changes = [] :=
  send_clears_changes (fun _ => true) 9
    (ChangeSet.mk "a" 0 [Change.mk "main" "users" ["id"] "INSERT" 0 1 [] [Value.int 1]] 0 0)
    (by decide)

/-- Witness for C4 at concrete inputs: a failing INSERT statement makes
`Apply` report an error and leave the (empty) database state unchanged, and
a change with operation `"SQL"` is skipped by the loop. -/
theorem apply_single_tx_error_handling_witness :
    ((ChangeSet.mk "a" 0 [Change.mk "main" "users" ["id"] "INSERT" 0 1 [] [Value.int 1]] 0 0).Apply
        (fun _ => true) (fun _ => none)).1 = (fun _ => none) ∧
    applyLoop (fun _ => true) (fun _ => none)
        [Change.mk "main" "users" [] "SQL" 0 0 [] []] =
      applyLoop (fun _ => true) (fun _ => none) [] := by
  constructor
  · exact (apply_single_tx_error_handling (fun _ => true) (fun _ => none)
      (ChangeSet.mk "a" 0 [Change.mk "main" "users" ["id"] "INSERT" 0 1 [] [Value.int 1]] 0 0)).1
      (by decide)
  · exact (apply_single_tx_error_handling (fun _ => true) (fun _ => none)
      (ChangeSet.mk "a" 0 [] 0 0)).2.2.1
      (Change.mk "main" "users" [] "SQL" 0 0 [] []) (by decide) []

/-- Outcome of the subscriber message handler: whether the message was
acked, whether `cs.Apply()` was invoked, and the `streamSeq`
field of the subscriber afterwards. -/
structure HandlerOut where
  acked : Bool
  applied : Bool
  streamSeq : Nat
  deriving DecidableEq, Repr

/-- Method `CDCSubscriber.ack` from `cdc_subscriber.go`: `msg.Ack()` may
fail, but the failure is only logged; `s.streamSeq = meta.Sequence.Stream`
runs unconditionally afterwards. -/
def subscriberAck (ackErr : Bool) (prevStreamSeq : Nat) (msgSeq : Nat) : Nat :=
  msgSeq

/-- Method `CDCSubscriber.handler` from `cdc_subscriber.go`.  Inputs model
the effectful calls: `metaOk = false` means `msg.Metadata()` failed (early
return, nothing acked); `decoded = none` means `json.Unmarshal` failed;
`applyErr` is the result of `cs.Apply()`; `ackErr` the result of
`msg.Ack()` inside `ack`.  `node`/`pid` are the local node name and the
package-level `processID`. -/
def subscriberHandler (node : String) (pid : Int) (streamSeq0 : Nat)
    (metaOk : Bool) (msgSeq : Nat) (decoded : Option ChangeSet)
    (applyErr : Bool) (ackErr : Bool) : HandlerOut :=
  if !metaOk then
    { acked := false, applied := false, streamSeq := streamSeq0 }
  else
    match decoded with
    | none =>
      { acked := true, applied := false,
        streamSeq := subscriberAck ackErr streamSeq0 msgSeq }
    | some cs =>
      if cs.Node = node ∧ cs.ProcessID = pid then
        { acked := true, applied := false,
          streamSeq := subscriberAck ackErr streamSeq0 msgSeq }
      else if applyErr then
        { acked := false, applied := true, streamSeq := streamSeq0 }
      else
        { acked := true, applied := true,
          streamSeq := subscriberAck ackErr streamSeq0 msgSeq }

/-- C2: a decoded ChangeSet is dropped without invoking `Apply` exactly
when its origin node equals the local node name and its process id equals
the local process id; in particular a ChangeSet from a prior incarnation of
the same node (same node, different process id) is applied. -/
theorem subscriber_origin_filter (node : String) (pid : Int) (streamSeq0 msgSeq : Nat)
    (cs : ChangeSet) (applyErr ackErr : Bool) :
    (subscriberHandler node pid streamSeq0 true msgSeq (some cs) applyErr ackErr).applied = false
      ↔ (cs.Node = node ∧ cs.ProcessID = pid) := by
  unfold subscriberHandler
  by_cases horigin : cs.Node = node ∧ cs.ProcessID = pid
  · simp [horigin]
  · cases applyErr <;> simp [horigin]

/-- Witness for C2: a changeset from the same node but a different process
id (a prior incarnation, local pid 77 versus recorded pid 3) is applied,
while one carrying the local pid is dropped. -/
theorem subscriber_origin_filter_witness :
    ((subscriberHandler "node1" 77 0 true 5 (some (ChangeSet.mk "node1" 3
        [Change.mk "main" "users" ["id"] "INSERT" 0 1 [] [Value.int 1]] 0 0)) false false).applied = false
      ↔ ((ChangeSet.mk "node1" 3
        [Change.mk "main" "users" ["id"] "INSERT" 0 1 [] [Value.int 1]] 0 0).Node = "node1"
        ∧ (ChangeSet.mk "node1" 3
        [Change.mk "main" "users" ["id"] "INSERT" 0 1 [] [Value.int 1]] 0 0).ProcessID = 77)) ∧
    (subscriberHandler "node1" 77 0 true 5 (some (ChangeSet.mk "node1" 3
        [Change.mk "main" "users" ["id"] "INSERT" 0 1 [] [Value.int 1]] 0 0)) false false).applied = true ∧
    (subscriberHandler "node1" 77 0 true 5 (some (ChangeSet.mk "node1" 77
        [Change.mk "main" "users" ["id"] "INSERT" 0 1 [] [Value.int 1]] 0 0)) false false).applied = false :=
  ⟨subscriber_origin_filter "node1" 77 0 5 (ChangeSet.mk "node1" 3
      [Change.mk "main" "users" ["id"] "INSERT" 0 1 [] [Value.int 1]] 0 0) false false,
    by decide, by decide⟩

/-- C5: the handler acks exactly when the payload failed to decode, or the
origin filter matched, or `Apply` returned nil; an `Apply` error leaves the
message un-acked so it is redelivered. -/
theorem handler_ack_conditions (node : String) (pid : Int) (streamSeq0 msgSeq : Nat)
    (decoded : Option ChangeSet) (applyErr ackErr : Bool) :
    (subscriberHandler node pid streamSeq0 true msgSeq decoded applyErr ackErr).acked = true
      ↔ (decoded = none
        ∨ (∃ cs, decoded = some cs ∧ cs.Node = node ∧ cs.ProcessID = pid)
        ∨ applyErr = false) := by
  unfold subscriberHandler
  cases decoded with
  | none => simp
  | some cs =>
    by_cases horigin : cs.Node = node ∧ cs.ProcessID = pid
    · simp [horigin]
    · cases applyErr <;> simp [horigin]

/-- Witness for C5: an apply failure on a remote changeset withholds the
ack, and an undecodable payload is acked (poison-pill drop). -/
theorem handler_ack_conditions_witness :
    ((subscriberHandler "node1" 77 0 true 5 (some (ChangeSet.mk "node2" 3
        [Change.mk "main" "users" ["id"] "INSERT" 0 1 [] [Value.int 1]] 0 0)) true false).acked = true
      ↔ ((some (ChangeSet.mk "node2" 3
          [Change.mk "main" "users" ["id"] "INSERT" 0 1 [] [Value.int 1]] 0 0)
            = (none : Option ChangeSet))
        ∨ (∃ cs, some (ChangeSet.mk "node2" 3
            [Change.mk "main" "users" ["id"] "INSERT" 0 1 [] [Value.int 1]] 0 0) = some cs
              ∧ cs.Node = "node1" ∧ cs.ProcessID = 77)
        ∨ (true = false))) ∧
    (subscriberHandler "node1" 77 0 true 5 (some (ChangeSet.mk "node2" 3
        [Change.mk "main" "users" ["id"] "INSERT" 0 1 [] [Value.int 1]] 0 0)) true false).acked = false ∧
    (subscriberHandler "node1" 77 0 true 5 none true false).acked = true :=
  ⟨handler_ack_conditions "node1" 77 0 5 (some (ChangeSet.mk "node2" 3
      [Change.mk "main" "users" ["id"] "INSERT" 0 1 [] [Value.int 1]] 0 0)) true false,
    by decide, by decide⟩

/-- C10: whenever the handler reaches its ack step, `streamSeq` is set to
the stream sequence of the message — also when `msg.Ack()` itself errors (the
whole handler result is independent of the ack error); when `Apply` fails
the handler returns early and `streamSeq` keeps its previous value. -/
theorem handler_latest_seq (node : String) (pid : Int) (streamSeq0 msgSeq : Nat)
    (decoded : Option ChangeSet) (applyErr ackErr : Bool) :
    ((subscriberHandler node pid streamSeq0 true msgSeq decoded applyErr ackErr).acked = true →
      (subscriberHandler node pid streamSeq0 true msgSeq decoded applyErr ackErr).streamSeq = msgSeq) ∧
    ((subscriberHandler node pid streamSeq0 true msgSeq decoded applyErr ackErr).acked = false →
      (subscriberHandler node pid streamSeq0 true msgSeq decoded applyErr ackErr).streamSeq = streamSeq0) ∧
    subscriberHandler node pid streamSeq0 true msgSeq decoded applyErr ackErr
      = subscriberHandler node pid streamSeq0 true msgSeq decoded applyErr true := by
  unfold subscriberHandler
  cases decoded with
  | none => simp [subscriberAck]
  | some cs =>
    by_cases horigin : cs.Node = node ∧ cs.ProcessID = pid
    · simp [horigin, subscriberAck]
    · cases applyErr <;> simp [horigin, subscriberAck]

/-- Witness for C10: after acking a remote changeset delivered at stream
sequence 5 with a failing `Ack` call, `streamSeq` is 5; after an apply
failure it stays at its previous value 4. -/
theorem handler_latest_seq_witness :
    (subscriberHandler "node1" 77 4 true 5 (some (ChangeSet.mk "node2" 3
        [Change.mk "main" "users" ["id"] "INSERT" 0 1 [] [Value.int 1]] 0 0)) false true).streamSeq = 5 ∧
    (subscriberHandler "node1" 77 4 true 5 (some (ChangeSet.mk "node2" 3
        [Change.mk "main" "users" ["id"] "INSERT" 0 1 [] [Value.int 1]] 0 0)) true true).streamSeq = 4 :=
  ⟨(handler_latest_seq "node1" 77 4 5 (some (ChangeSet.mk "node2" 3
      [Change.mk "main" "users" ["id"] "INSERT" 0 1 [] [Value.int 1]] 0 0)) false true).1 (by decide),
    (handler_latest_seq "node1" 77 4 5 (some (ChangeSet.mk "node2" 3
      [Change.mk "main" "users" ["id"] "INSERT" 0 1 [] [Value.int 1]] 0 0)) true true).2.1 (by decide)⟩

/-- Delivery policies supported by `NewCDCSubscriber`. -/
inductive DeliverPolicy where
  | all : DeliverPolicy
  | last : DeliverPolicy
  | new : DeliverPolicy
  | byStartSequence (n : Nat) : DeliverPolicy
  | byStartTime (t : String) : DeliverPolicy
  deriving DecidableEq, Repr

/-- Leading decimal run accumulated the way `Sscanf` with `%d` reads it:
digits are consumed until the first non-digit. -/
def takeDigitsNat : Nat → List Char → Nat
  | acc, [] => acc
  | acc, c :: rest => if c.isDigit then takeDigitsNat (10 * acc + (c.toNat - 48)) rest else acc

/-- Policy parsing of `NewCDCSubscriber` in `cdc_subscriber.go`: the
`by_start_sequence=` arm requires at least one digit after the `=` (regex
`^by_start_sequence=\d+`) and `Sscanf` reads the leading decimal run; the
`by_start_time=` arm keeps the rest of the string for time parsing (the
time-format check itself is not modelled). -/
def parseDeliverPolicy (policy : String) : Option DeliverPolicy :=
  if policy = "all" ∨ policy = "" then some DeliverPolicy.all
  else if policy = "last" then some DeliverPolicy.last
  else if policy = "new" then some DeliverPolicy.new
  else if "by_start_sequence=".data.isPrefixOf policy.data then
    match policy.data.drop 18 with
    | [] => none
    | c :: rest =>
      if c.isDigit then some (DeliverPolicy.byStartSequence (takeDigitsNat (c.toNat - 48) rest))
      else none
  else if "by_start_time=".data.isPrefixOf policy.data then
    some (DeliverPolicy.byStartTime (String.mk (policy.data.drop 14)))
  else none

/-- Snapshot-resume branch of `Load` in `db.go` (lines 44–54): with the
`--from-latest-snapshot` flag, after reading the sequence
header of the latest snapshot, the delivery policy handed to the connector options is
`fmt.Sprintf("by_start_sequence=%d", sequence)` — applied only when
`sequence > 0` and the operator supplied no policy.  Returns the policy
option appended by the branch, if any. -/
def loadSnapshotResumePolicy (fromLatestSnapshot : Bool) (sequence : Nat)
    (deliverPolicy : String) : Option String :=
  if fromLatestSnapshot then
    if sequence > 0 ∧ deliverPolicy = "" then
      some ("by_start_sequence=" ++ toString sequence)
    else none
  else none

/-- Counterexample to C6: for a snapshot whose sequence header is 42 and no
operator-specified policy, `Load` forces `by_start_sequence=42` — not
`by_start_sequence=43` as the claim states — and the subscriber parses it
to start sequence 42. -/
theorem resume_policy_counterexample :
    loadSnapshotResumePolicy true 42 "" = some "by_start_sequence=42" ∧
    loadSnapshotResumePolicy true 42 "" ≠ some "by_start_sequence=43" ∧
    parseDeliverPolicy "by_start_sequence=42" = some (DeliverPolicy.byStartSequence 42) := by
  refine ⟨rfl, by decide, ?_⟩
  decide

/-- C6 as amended: on startup with `--from-latest-snapshot`, a snapshot
sequence header S > 0 and no operator-specified policy force the delivery
policy to `by_start_sequence=S` (the header value itself, not S + 1). -/
theorem resume_policy_from_snapshot (sequence : Nat) (deliverPolicy : String)
    (h1 : 0 < sequence) (h2 : deliverPolicy = "") :
    loadSnapshotResumePolicy true sequence deliverPolicy
      = some ("by_start_sequence=" ++ toString sequence) := by
  unfold loadSnapshotResumePolicy
  rw [if_pos rfl, if_pos ⟨h1, h2⟩]

/-- Witness for the amended C6 at header value 42. -/
theorem resume_policy_from_snapshot_witness :
    loadSnapshotResumePolicy true 42 "" = some ("by_start_sequence=" ++ toString 42) :=
  resume_policy_from_snapshot 42 "" (by decide) rfl

/-- Package-level state of the `nats` package: `seq` is set by
`CDCPublisher.Publish` to `pubAck.Sequence` (the sequence the stream
assigned to the published message); `subStreamSeq` is the `streamSeq` field
of the `CDCSubscriber`, set by its `ack` method. -/
structure NatsProcState where
  seq : Nat
  subStreamSeq : Nat
  deriving DecidableEq, Repr

/-- Effect of `CDCPublisher.Publish` on the package state:
`seq = pubAck.Sequence`. -/
def publishAssign (st : NatsProcState) (pubAckSequence : Nat) : NatsProcState :=
  { st with seq := pubAckSequence }

/-- Effect of a successful subscriber ack on the package state:
`s.streamSeq = meta.Sequence.Stream` (see `subscriberAck` for the
field-level model). -/
def subscriberAckState (st : NatsProcState) (msgSeq : Nat) : NatsProcState :=
  { st with subStreamSeq := subscriberAck false st.subStreamSeq msgSeq }

/-- Method `CDCSubscriber.LatestSeq` from `cdc_subscriber.go`. -/
def LatestSeq (st : NatsProcState) : Nat :=
  st.subStreamSeq

/-- Sequence captured by `Snapshotter.TakeSnapshot`: `sequence = seq` reads
the package-level publisher variable (object-store plumbing, the snapshot
lock and the tombstone dance are not modelled). -/
def takeSnapshotSeq (st : NatsProcState) : Nat :=
  st.seq

/-- Header written on the stored object:
`headers.Set("seq", fmt.Sprint(sequence))`. -/
def takeSnapshotHeader (st : NatsProcState) : String :=
  toString (takeSnapshotSeq st)

/-- Counterexample to C7: a node publishes a changeset assigned stream
sequence 1, then acks a remote changeset delivered at stream sequence 2 (so
`LatestSeq()` returns 2).  A snapshot taken now carries header `"1"` — the
publisher-side `seq` — not the latest acknowledged sequence of the subscriber
`"2"` as the claim states. -/
theorem snapshot_header_counterexample :
    takeSnapshotHeader (subscriberAckState (publishAssign ⟨0, 0⟩ 1) 2) = "1" ∧
    takeSnapshotSeq (subscriberAckState (publishAssign ⟨0, 0⟩ 1) 2) = 1 ∧
    LatestSeq (subscriberAckState (publishAssign ⟨0, 0⟩ 1) 2) = 2 ∧
    toString (LatestSeq (subscriberAckState (publishAssign ⟨0, 0⟩ 1) 2)) = "2" ∧
    ("1" : String) ≠ "2" := by
  refine ⟨rfl, rfl, rfl, rfl, by decide⟩

/-- C7 as amended: the `seq` header (and the sequence `TakeSnapshot`
returns) equals the package-level `seq` variable — the stream sequence
assigned to the most recent ChangeSet published by the publisher of this
process; subscriber acks never change it, they only move `LatestSeq`. -/
theorem snapshot_header_source (st : NatsProcState) (assigned msgSeq : Nat) :
    takeSnapshotHeader (publishAssign st assigned) = toString assigned ∧
    takeSnapshotSeq (publishAssign st assigned) = assigned ∧
    takeSnapshotHeader (subscriberAckState st msgSeq) = takeSnapshotHeader st ∧
    LatestSeq (subscriberAckState st msgSeq) = msgSeq := by
  exact ⟨rfl, rfl, rfl, rfl⟩

/-- Classifier output as consumed by `Exec` in `db.go` and `handler` in
`pgwire.go` (`ha.Statement` accessors). -/
structure Statement where
  isSelect : Bool := false
  isExplain : Bool := false
  hasReturning : Bool := false
  isInsert : Bool := false
  isDelete : Bool := false
  isUpdate : Bool := false
  type : String := "OTHER"
  deriving DecidableEq, Repr

/-- Struct `Response` from `db.go`; `NoReturning` is left at its zero value
`false` by `doQuery` and set `true` by `doExec`. -/
structure Response where
  Columns : List String := []
  Rows : List Row := []
  RowsAffected : Int := 0
  NoReturning : Bool := false
  deriving DecidableEq, Repr

/-- Dispatch target of `Exec`. -/
inductive ExecPath where
  | query : ExecPath
  | exec : ExecPath
  deriving DecidableEq, Repr

/-- Dispatch condition of `Exec` in `db.go`:
`stmt.IsSelect() || stmt.IsExplain() || stmt.HasReturning()` selects
`doQuery`, everything else goes to `doExec`. -/
def execPath (stmt : Statement) : ExecPath :=
  if stmt.isSelect || stmt.isExplain || stmt.hasReturning then ExecPath.query
  else ExecPath.exec

/-- Function `Exec` from `db.go`, with the answers of the engine supplied as
arguments: `doQuery` yields the projected columns and rows (leaving
`NoReturning` false), `doExec` yields the `rows_affected`/`last_insert_id`
pseudo-row with `NoReturning` true. -/
def Exec (stmt : Statement) (queryCols : List String) (queryRows : List Row)
    (rowsAffected lastInsertID : Int) : Response :=
  match execPath stmt with
  | ExecPath.query => { Columns := queryCols, Rows := queryRows }
  | ExecPath.exec =>
    { Columns := ["rows_affected", "last_insert_id"],
      Rows := [[Value.int rowsAffected, Value.int lastInsertID]],
      RowsAffected := rowsAffected, NoReturning := true }

/-- Completion tag selection of `handler` in `internal/pgwire/pgwire.go`:
on the `NoReturning` path the tag is chosen by statement kind
(`INSERT 0 n` / `DELETE n` / `UPDATE n` / the type name / empty), otherwise
the row-writing path always completes with `SELECT n`. -/
def completionTag (stmt : Statement) (resp : Response) : String :=
  if resp.NoReturning then
    if stmt.isInsert then "INSERT 0 " ++ toString resp.RowsAffected
    else if stmt.isDelete then "DELETE " ++ toString resp.RowsAffected
    else if stmt.isUpdate then "UPDATE " ++ toString resp.RowsAffected
    else if stmt.type ≠ "OTHER" then stmt.type
    else ""
  else "SELECT " ++ toString resp.Rows.length

/-- Counterexample to C8: an INSERT with RETURNING is dispatched through
the query path (first half of the claim holds), but the completion tag the
client receives is `SELECT 1` — the tag of the row-writing path — not an INSERT
completion tag (`INSERT 0 1` would be the INSERT tag for one affected
row). -/
theorem insert_returning_tag_counterexample :
    execPath { isInsert := true, hasReturning := true, type := "INSERT" } = ExecPath.query ∧
    completionTag { isInsert := true, hasReturning := true, type := "INSERT" }
        (Exec { isInsert := true, hasReturning := true, type := "INSERT" }
          ["id"] [[Value.int 1]] 0 0)
      = "SELECT 1" ∧
    ("SELECT 1" : String) ≠ "INSERT 0 1" := by
  refine ⟨rfl, rfl, by decide⟩

/-- C8 as amended: a statement that is an INSERT and has RETURNING is
dispatched through the query path, and the completion tag emitted to the
client is the SELECT tag carrying the number of returned rows. -/
theorem insert_returning_query_path (stmt : Statement) (queryCols : List String)
    (queryRows : List Row) (rowsAffected lastInsertID : Int)
    (hins : stmt.isInsert = true) (hret : stmt.hasReturning = true) :
    execPath stmt = ExecPath.query ∧
    completionTag stmt (Exec stmt queryCols queryRows rowsAffected lastInsertID)
      = "SELECT " ++ toString queryRows.length := by
  have hpath : execPath stmt = ExecPath.query := by
    unfold execPath
    simp [hret]
  refine ⟨hpath, ?_⟩
  unfold Exec
  rw [hpath]
  rfl

/-- Witness for the amended C8: a one-row `INSERT … RETURNING id` goes down
the query path and completes with `SELECT 1`. -/
theorem insert_returning_query_path_witness :
    execPath { isInsert := true, hasReturning := true, type := "INSERT" } = ExecPath.query ∧
    completionTag { isInsert := true, hasReturning := true, type := "INSERT" }
        (Exec { isInsert := true, hasReturning := true, type := "INSERT" }
          ["id"] [[Value.int 7]] 0 0)
      = "SELECT " ++ toString [[Value.int 7]].length :=
  insert_returning_query_path { isInsert := true, hasReturning := true, type := "INSERT" }
    ["id"] [[Value.int 7]] 0 0 rfl rfl

end HA
